import Mathlib

/-!
Verification of the Tzolkin correlation engine (`tzolkin_oraculo.py`).

The Python module is embedded shallowly: calendar dates become a `Date`
structure of natural-number fields, Python `int` arithmetic on day deltas
becomes `Int` (Python `%` on a positive modulus agrees with `Int.emod`),
list/dict lookups that can raise become `Option`-valued lookups, and the
exception branch of `kin_from_seal_tone` becomes `none`.
-/

set_option maxRecDepth 4000

namespace Tzolkin

/-- A proleptic Gregorian calendar date, as Python's `datetime.date`
(year 1..9999, validated months and days). -/
structure Date where
  year : Nat
  month : Nat
  day : Nat
deriving DecidableEq

/-- Python `date` comparison: lexicographic on (year, month, day). -/
def Date.ltB (a b : Date) : Bool :=
  a.year < b.year ||
    (a.year == b.year &&
      (a.month < b.month || (a.month == b.month && a.day < b.day)))

/-- Python `<=` on dates: `<` or equal. -/
def Date.leB (a b : Date) : Bool :=
  Date.ltB a b || a == b

instance : LT Date := ⟨fun a b => Date.ltB a b = true⟩

instance : LE Date := ⟨fun a b => Date.leB a b = true⟩

instance (a b : Date) : Decidable (a < b) :=
  inferInstanceAs (Decidable (Date.ltB a b = true))

instance (a b : Date) : Decidable (a ≤ b) :=
  inferInstanceAs (Decidable (Date.leB a b = true))

/-- `SEALS` table from the source. -/
def SEALS : List String :=
  ["Dragão", "Vento", "Noite", "Semente", "Serpente",
   "Enlaçador de Mundos", "Mão", "Estrela", "Lua", "Cão",
   "Macaco", "Humano", "Caminhante do Céu", "Mago", "Águia",
   "Guerreiro", "Terra", "Espelho", "Tempestade", "Sol"]

/-- `TONES` table from the source. -/
def TONES : List String :=
  ["Magnético", "Lunar", "Elétrico", "Autoexistente", "Harmônico",
   "Rítmico", "Ressonante", "Galáctico", "Solar", "Planetário",
   "Espectral", "Cristal", "Cósmico"]

/-- `COLORS` table from the source. -/
def COLORS : List String := ["Vermelho", "Branco", "Azul", "Amarelo"]

/-- `ANCHOR_DATE = date(2012, 12, 20)`. -/
def ANCHOR_DATE : Date := ⟨2012, 12, 20⟩

/-- `ANCHOR_KIN = 206`. -/
def ANCHOR_KIN : Nat := 206

/-- `_is_leap` from the source: Gregorian leap-year test. -/
def is_leap (y : Nat) : Bool :=
  y % 4 == 0 && (y % 100 != 0 || y % 400 == 0)

/-- Python `range(a, b)` as a list (empty when `b ≤ a`). -/
def pyRange (a b : Nat) : List Nat := List.range' a (b - a)

/-- `_hunab_ku_adjust` from the source: counts Feb 29 days in `(mn, mx]`
scanning years `mn.year .. mx.year`, negated when `target > anchor`. -/
def hunab_ku_adjust (anchor target : Date) : Int :=
  if target = anchor then 0
  else
    let mn := if Date.ltB anchor target then anchor else target
    let mx := if Date.ltB anchor target then target else anchor
    let count : Nat :=
      (pyRange mn.year (mx.year + 1)).countP (fun y =>
        is_leap y && Date.ltB mn ⟨y, 2, 29⟩ && Date.leB ⟨y, 2, 29⟩ mx)
    if Date.ltB anchor target then -(count : Int) else (count : Int)

/-- Cumulative day counts before each month in a non-leap year, as used by
Python's `datetime` ordinal computation. -/
def daysBeforeMonthTable : List Nat :=
  [0, 31, 59, 90, 120, 151, 181, 212, 243, 273, 304, 334]

/-- Days in a given month of a given year (proleptic Gregorian). -/
def daysInMonth (y m : Nat) : Nat :=
  if m = 2 then (if is_leap y then 29 else 28)
  else if m = 4 ∨ m = 6 ∨ m = 9 ∨ m = 11 then 30
  else 31

/-- The proleptic Gregorian ordinal of a date (day 1 = 0001-01-01), the
value Python's `date.toordinal()` computes; date subtraction `(d1 - d2).days`
is the difference of ordinals. -/
def toOrdinal (d : Date) : Nat :=
  365 * (d.year - 1) + (d.year - 1) / 4 - (d.year - 1) / 100 + (d.year - 1) / 400
    + daysBeforeMonthTable.getD (d.month - 1) 0
    + (if 2 < d.month ∧ is_leap d.year = true then 1 else 0)
    + d.day

/-- A valid Python `datetime.date`: year 1..9999, month 1..12, day within
the month. -/
def validDate (d : Date) : Prop :=
  1 ≤ d.year ∧ d.year ≤ 9999 ∧ 1 ≤ d.month ∧ d.month ≤ 12 ∧
    1 ≤ d.day ∧ d.day ≤ daysInMonth d.year d.month

instance (d : Date) : Decidable (validDate d) := by
  unfold validDate; infer_instance

/-- `(d - ANCHOR_DATE).days` of the source: signed whole-day difference. -/
def dayDelta (d : Date) : Int :=
  (toOrdinal d : Int) - (toOrdinal ANCHOR_DATE : Int)

/-- `kin_from_date` from the source: returns `(kin, tone, seal, color)`.
Python `%` on the positive modulus 260 agrees with `Int.emod`; the index
into `COLORS` is always < 4, so `getD` coincides with Python's indexing. -/
def kin_from_date (d : Date) : Nat × Nat × Nat × String :=
  let delta : Int := dayDelta d + hunab_ku_adjust ANCHOR_DATE d
  let kin : Nat := ((delta + ((ANCHOR_KIN : Int) - 1)) % 260).toNat + 1
  let tone : Nat := ((kin - 1) % 13) + 1
  let s : Nat := ((kin - 1) % 20) + 1
  let color : String := COLORS.getD ((s - 1) % 4) ""
  (kin, tone, s, color)

/-- `kin_from_seal_tone` from the source: first `k` in 1..260 matching both
residues; the `raise ValueError` branch becomes `none`. -/
def kin_from_seal_tone (s tone : Nat) : Option Nat :=
  (List.range' 1 260).find? (fun k =>
    ((k - 1) % 20) + 1 == s && ((k - 1) % 13) + 1 == tone)

/-- `analog_seal` from the source: analog pairs sum to 19 in the 1–20 cycle.
(The `Nat` subtraction never truncates: `s % 20 ≤ 19`.) -/
def analog_seal (s : Nat) : Nat :=
  let r := (19 - (s % 20)) % 20
  if r = 0 then 20 else r

/-- `antipode_seal` from the source: seal + 10 in the 1–20 cycle. -/
def antipode_seal (s : Nat) : Nat :=
  ((s + 9) % 20) + 1

/-- `occult_seal` from the source: seals summing to 21 in the 1–20 cycle. -/
def occult_seal (s : Nat) : Nat :=
  let r := (21 - (s % 20)) % 20
  if r = 0 then 20 else r

/-- `occult_tone` from the source: 14 − tone in the 1–13 cycle. -/
def occult_tone (tone : Nat) : Nat :=
  let r := (14 - (tone % 13)) % 13
  if r = 0 then 13 else r

/-- `GUIDE_INDEX_BY_TONE` dict from the source: `none` for a missing key,
`some none` for an entry whose value is Python `None`. -/
def GUIDE_INDEX_BY_TONE (t : Nat) : Option (Option Nat) :=
  match t with
  | 1 => some none
  | 2 => some (some 4)
  | 3 => some (some 3)
  | 4 => some (some 2)
  | 5 => some (some 3)
  | 6 => some none
  | 7 => some (some 2)
  | 8 => some (some 1)
  | 9 => some (some 0)
  | 10 => some (some 2)
  | 11 => some none
  | 12 => some (some 1)
  | 13 => some (some 3)
  | _ => none

/-- `COLOR_GROUPS` dict from the source; `none` for a missing key. -/
def COLOR_GROUPS (c : String) : Option (List Nat) :=
  if c = "Vermelho" then some [1, 5, 9, 13, 17]
  else if c = "Branco" then some [2, 6, 10, 14, 18]
  else if c = "Azul" then some [3, 7, 11, 15, 19]
  else if c = "Amarelo" then some [4, 8, 12, 16, 20]
  else none

/-- `guide_seal` from the source. `none` models the exceptions Python would
raise (`KeyError` on a tone outside 1..13, `TypeError` when the dict entry
is `None` — unreachable since tones 1, 6, 11 return early, `IndexError` on
an out-of-range group index). -/
def guide_seal (s tone : Nat) : Option Nat :=
  if tone = 1 ∨ tone = 6 ∨ tone = 11 then some s
  else
    let color := COLORS.getD ((s - 1) % 4) ""
    (COLOR_GROUPS color).bind fun group =>
      (GUIDE_INDEX_BY_TONE tone).bind fun entry =>
        entry.bind fun idx => group.get? idx

/-- One labelled part of the oracle record, as built by the local `part`
helper of `full_oracle_for_date`. -/
structure OraclePart where
  kin : Nat
  selo_num : Nat
  selo_nome : String
  tom_num : Nat
  tom_nome : String
  cor : String
deriving DecidableEq

/-- The oracle record assembled by `full_oracle_for_date` (the formatted
date string of the Python dict is presentation only and not modelled). -/
structure Oracle where
  destino : OraclePart
  analogo : OraclePart
  antipoda : OraclePart
  guia : OraclePart
  oculto : OraclePart
deriving DecidableEq

/-- The local `part(seal_num, tone_num)` helper of `full_oracle_for_date`:
resolves the pair through `kin_from_seal_tone` and the name tables; `none`
models the exceptions of the lookups. -/
def oracle_part (seal_num tone_num : Nat) : Option OraclePart :=
  (kin_from_seal_tone seal_num tone_num).bind fun k =>
    (SEALS.get? (seal_num - 1)).bind fun sn =>
      (TONES.get? (tone_num - 1)).bind fun tn =>
        some ⟨k, seal_num, sn, tone_num, tn, COLORS.getD ((seal_num - 1) % 4) ""⟩

/-- `full_oracle_for_date` from the source: derives the four role pairs and
resolves each through `oracle_part`; `none` models any raised exception.
The destiny part overrides `kin` and `cor` with the values from
`kin_from_date`, as the Python dict merge does. -/
def full_oracle_for_date (d : Date) : Option Oracle :=
  match kin_from_date d with
  | (kin, tone, s, color) =>
    (guide_seal s tone).bind fun g_s =>
      (oracle_part s tone).bind fun pd =>
        (oracle_part (analog_seal s) tone).bind fun pa =>
          (oracle_part (antipode_seal s) tone).bind fun pan =>
            (oracle_part g_s tone).bind fun pg =>
              (oracle_part (occult_seal s) (occult_tone tone)).bind fun po =>
                some ⟨{ pd with kin := kin, cor := color }, pa, pan, pg, po⟩

/-! ## Helper lemmas on dates and counting -/

lemma countP_eq_card_filter_Icc (p : Nat → Bool) (lo hi : Nat) :
    (List.range' lo (hi + 1 - lo)).countP p
      = ((Finset.Icc lo hi).filter (fun y => p y = true)).card := by
  rw [List.countP_eq_length_filter, ← Nat.Ico_succ_right, Nat.Ico_eq_range']
  simp [Finset.filter, Finset.card]

lemma Date.lt_iff_ltB {a b : Date} : a < b ↔ Date.ltB a b = true := Iff.rfl

lemma Date.le_iff_leB {a b : Date} : a ≤ b ↔ Date.leB a b = true := Iff.rfl

lemma Date.ltB_irrefl (a : Date) : Date.ltB a a = false := by
  simp [Date.ltB]

lemma Date.ext_iff3 {a b : Date} :
    a = b ↔ a.year = b.year ∧ a.month = b.month ∧ a.day = b.day := by
  cases a; cases b; simp [Date.mk.injEq]

lemma Date.ltB_asymm {a b : Date} (h : Date.ltB a b = true) : Date.ltB b a = false := by
  unfold Date.ltB at *; simp at *; omega

lemma Date.ltB_total {a b : Date} (hne : a ≠ b) (h : Date.ltB a b = false) :
    Date.ltB b a = true := by
  have hne3 : ¬(a.year = b.year ∧ a.month = b.month ∧ a.day = b.day) :=
    fun hc => hne (Date.ext_iff3.mpr hc)
  unfold Date.ltB at *; simp at *; omega

lemma Date.year_le_of_ltB {a b : Date} (h : Date.ltB a b = true) : a.year ≤ b.year := by
  unfold Date.ltB at h; simp at h; omega

/-! ## Spec-side rendering of the leap-day count (§4.1 of the spec) -/

/-- Modelled from the spec (§4.1): the standard Gregorian leap rule, in the
spec's words (divisible by 4, and not by 100 unless also by 400). -/
def specIsLeap (y : Nat) : Prop := y % 4 = 0 ∧ (y % 100 ≠ 0 ∨ y % 400 = 0)

instance : DecidablePred specIsLeap := fun y => by unfold specIsLeap; infer_instance

/-- February 29 of the given year. -/
def feb29 (y : Nat) : Date := ⟨y, 2, 29⟩

/-- Modelled from the spec (§4.1): the number of leap days `feb29` with
`lo < feb29 ≤ hi`, scanning years `lo.year .. hi.year`. -/
def specLeapCount (lo hi : Date) : Nat :=
  ((Finset.Icc lo.year hi.year).filter
    (fun y => specIsLeap y ∧ lo < feb29 y ∧ feb29 y ≤ hi)).card

lemma is_leap_iff_specIsLeap (y : Nat) : is_leap y = true ↔ specIsLeap y := by
  simp [is_leap, specIsLeap]

lemma hunab_count_eq (mn mx : Date) :
    (pyRange mn.year (mx.year + 1)).countP (fun y =>
        is_leap y && Date.ltB mn ⟨y, 2, 29⟩ && Date.leB ⟨y, 2, 29⟩ mx)
      = specLeapCount mn mx := by
  unfold pyRange specLeapCount
  rw [countP_eq_card_filter_Icc]
  congr 1
  apply Finset.filter_congr
  intro y _
  simp [is_leap_iff_specIsLeap, Date.lt_iff_ltB, Date.le_iff_leB, feb29, and_assoc]

/-- The code's adjustment equals the spec's signed leap-day count, for all
date pairs. -/
lemma hunab_ku_adjust_eq_spec (a b : Date) :
    hunab_ku_adjust a b =
      if a < b then -(specLeapCount a b : Int)
      else if b < a then (specLeapCount b a : Int) else 0 := by
  unfold hunab_ku_adjust
  by_cases heq : b = a
  · subst heq
    simp [Date.lt_iff_ltB, Date.ltB_irrefl]
  · rw [if_neg heq]
    by_cases hlt : Date.ltB a b = true
    · simp only [Date.lt_iff_ltB, hlt, if_true, if_pos]
      rw [hunab_count_eq]
    · have hne : a ≠ b := fun h => heq h.symm
      have hlt2 : Date.ltB b a = true := Date.ltB_total hne (by simpa using hlt)
      simp only [Date.lt_iff_ltB, hlt, hlt2, Bool.false_eq_true, if_false, if_true, if_pos]
      rw [hunab_count_eq]

/-! ## Helper lemmas on the forward mapping -/

lemma kin_from_date_kin_bounds (d : Date) :
    1 ≤ (kin_from_date d).1 ∧ (kin_from_date d).1 ≤ 260 := by
  simp only [kin_from_date]
  omega

lemma kin_from_date_components (d : Date) :
    (kin_from_date d).2.1 = (((kin_from_date d).1 - 1) % 13) + 1 ∧
    (kin_from_date d).2.2.1 = (((kin_from_date d).1 - 1) % 20) + 1 ∧
    (kin_from_date d).2.2.2 = COLORS.getD (((kin_from_date d).2.2.1 - 1) % 4) "" := by
  simp [kin_from_date]

lemma kin_from_date_seal_mem (d : Date) :
    (kin_from_date d).2.2.1 ∈ Finset.Icc 1 20 := by
  simp only [kin_from_date, Finset.mem_Icc]
  omega

lemma kin_from_date_tone_mem (d : Date) :
    (kin_from_date d).2.1 ∈ Finset.Icc 1 13 := by
  simp only [kin_from_date, Finset.mem_Icc]
  omega

/-! ## Finite-domain facts about the oracle transforms -/

lemma guide_total : ∀ s ∈ Finset.Icc 1 20, ∀ t ∈ Finset.Icc 1 13,
    ∃ g ∈ Finset.Icc 1 20, guide_seal s t = some g := by decide

lemma oracle_part_total : ∀ s ∈ Finset.Icc 1 20, ∀ t ∈ Finset.Icc 1 13,
    (oracle_part s t).isSome = true := by decide

lemma analog_seal_mem : ∀ s ∈ Finset.Icc 1 20, analog_seal s ∈ Finset.Icc 1 20 := by decide

lemma antipode_seal_mem : ∀ s ∈ Finset.Icc 1 20, antipode_seal s ∈ Finset.Icc 1 20 := by decide

lemma occult_seal_mem : ∀ s ∈ Finset.Icc 1 20, occult_seal s ∈ Finset.Icc 1 20 := by decide

lemma occult_tone_mem : ∀ t ∈ Finset.Icc 1 13, occult_tone t ∈ Finset.Icc 1 13 := by decide

/-! ## Spec-side guide index tables (claim C1) -/

/-- Modelled from the spec's claim (§4.4): the tone → 0-based group index
table as the spec states it, mapping tones {2,3,4,5,7,8,9,10,12,13} to
indices {3,2,1,2,1,0,4,1,0,2} respectively. -/
def claimedGuideIndex (t : Nat) : Option Nat :=
  match t with
  | 2 => some 3 | 3 => some 2 | 4 => some 1 | 5 => some 2 | 7 => some 1
  | 8 => some 0 | 9 => some 4 | 10 => some 1 | 12 => some 0 | 13 => some 2
  | _ => none

/-- The amended index table: tones {2,3,4,5,7,8,9,10,12,13} map to the
0-based indices {4,3,2,3,2,1,0,2,1,3} of the source's `GUIDE_INDEX_BY_TONE`. -/
def amendedGuideIndex (t : Nat) : Option Nat :=
  match t with
  | 2 => some 4 | 3 => some 3 | 4 => some 2 | 5 => some 3 | 7 => some 2
  | 8 => some 1 | 9 => some 0 | 10 => some 2 | 12 => some 1 | 13 => some 3
  | _ => none

/-! ## Claim theorems -/

/-- C1 (counterexample): at seal 1 and tone 2 the code's `guide_seal` returns
17, while the claim's index table (index 3 for tone 2) selects 13 from the
seal's color group — the claim as stated is false. -/
theorem guide_seal_claimed_table_false :
    guide_seal 1 2 = some 17 ∧
    (COLOR_GROUPS (COLORS.getD ((1 - 1) % 4) "")).bind
      (fun g => (claimedGuideIndex 2).bind fun i => g.get? i) = some 13 := by decide

/-- C1 (amended): for every source seal in 1..20 and every source tone in
{2,3,4,5,7,8,9,10,12,13}, `guide_seal` returns the member of the source
seal's color group at the 0-based index given by the fixed table mapping
those tones to indices {4,3,2,3,2,1,0,2,1,3} respectively. -/
theorem guide_seal_matches_amended_table :
    ∀ s ∈ Finset.Icc 1 20, ∀ t ∈ ({2, 3, 4, 5, 7, 8, 9, 10, 12, 13} : Finset Nat),
      guide_seal s t = (COLOR_GROUPS (COLORS.getD ((s - 1) % 4) "")).bind
        (fun g => (amendedGuideIndex t).bind fun i => g.get? i) := by decide

/-- Witness for the amended C1 at seal 1, tone 2. -/
theorem guide_seal_matches_amended_table_witness :
    guide_seal 1 2 = (COLOR_GROUPS (COLORS.getD ((1 - 1) % 4) "")).bind
      (fun g => (amendedGuideIndex 2).bind fun i => g.get? i) :=
  guide_seal_matches_amended_table 1 (by decide) 2 (by decide)

/-- C2: resolving the anchor date yields exactly kin 206, tone 11, seal 6,
color "Branco", and seal index 6 names "Enlaçador de Mundos" in the seal
table. -/
theorem kin_from_date_anchor :
    kin_from_date ANCHOR_DATE = (206, 11, 6, "Branco") ∧
    SEALS.get? (6 - 1) = some "Enlaçador de Mundos" := by decide

set_option maxHeartbeats 2000000 in
/-- C3: for every kin in 1..260, the inverse lookup applied to kin's
decomposition recovers kin, and kin is the unique solution in 1..260. -/
theorem kin_from_seal_tone_round_trip :
    ∀ kin ∈ Finset.Icc 1 260,
      kin_from_seal_tone (((kin - 1) % 20) + 1) (((kin - 1) % 13) + 1) = some kin ∧
      ∀ k2 ∈ Finset.Icc 1 260,
        (((k2 - 1) % 20) + 1 = ((kin - 1) % 20) + 1 ∧
          ((k2 - 1) % 13) + 1 = ((kin - 1) % 13) + 1) → k2 = kin := by decide

/-- Witness for C3 at kin 206. -/
theorem kin_from_seal_tone_round_trip_witness :
    kin_from_seal_tone (((206 - 1) % 20) + 1) (((206 - 1) % 13) + 1) = some 206 :=
  (kin_from_seal_tone_round_trip 206 (by decide)).1

/-- C4: for every valid calendar date, building the full oracle record never
hits an exception: every lookup and every inverse search succeeds, so the
result is `some`. -/
theorem full_oracle_never_fails (d : Date) (_hd : validDate d) :
    (full_oracle_for_date d).isSome = true := by
  have hs := kin_from_date_seal_mem d
  have ht := kin_from_date_tone_mem d
  rcases hk : kin_from_date d with ⟨kin, tone, s, color⟩
  rw [hk] at hs ht
  dsimp only at hs ht
  obtain ⟨g, hgmem, hg⟩ := guide_total s hs tone ht
  obtain ⟨pd, hpd⟩ := Option.isSome_iff_exists.mp (oracle_part_total s hs tone ht)
  obtain ⟨pa, hpa⟩ := Option.isSome_iff_exists.mp
    (oracle_part_total (analog_seal s) (analog_seal_mem s hs) tone ht)
  obtain ⟨pan, hpan⟩ := Option.isSome_iff_exists.mp
    (oracle_part_total (antipode_seal s) (antipode_seal_mem s hs) tone ht)
  obtain ⟨pg, hpg⟩ := Option.isSome_iff_exists.mp
    (oracle_part_total g hgmem tone ht)
  obtain ⟨po, hpo⟩ := Option.isSome_iff_exists.mp
    (oracle_part_total (occult_seal s) (occult_seal_mem s hs)
      (occult_tone tone) (occult_tone_mem tone ht))
  unfold full_oracle_for_date
  rw [hk]
  simp [hg, hpd, hpa, hpan, hpg, hpo]

/-- Witness for C4 at 2019-02-07. -/
theorem full_oracle_never_fails_witness :
    (full_oracle_for_date ⟨2019, 2, 7⟩).isSome = true :=
  full_oracle_never_fails ⟨2019, 2, 7⟩ (by decide)

/-- C5: the leap adjustment equals the number of Feb 29 days (standard
Gregorian leap rule) strictly after the earlier date and at most the later
date, negated when target > anchor, unsigned when target < anchor, and 0
when target = anchor. -/
theorem hunab_ku_adjust_correct (a b : Date) (_ha : validDate a) (_hb : validDate b) :
    hunab_ku_adjust a b =
      if a < b then -(specLeapCount a b : Int)
      else if b < a then (specLeapCount b a : Int) else 0 :=
  hunab_ku_adjust_eq_spec a b

/-- Witness for C5 on the pair (2012-12-20, 2019-02-07). -/
theorem hunab_ku_adjust_correct_witness :
    hunab_ku_adjust ⟨2012, 12, 20⟩ ⟨2019, 2, 7⟩ =
      if (⟨2012, 12, 20⟩ : Date) < ⟨2019, 2, 7⟩
      then -(specLeapCount ⟨2012, 12, 20⟩ ⟨2019, 2, 7⟩ : Int)
      else if (⟨2019, 2, 7⟩ : Date) < ⟨2012, 12, 20⟩
      then (specLeapCount ⟨2019, 2, 7⟩ ⟨2012, 12, 20⟩ : Int) else 0 :=
  hunab_ku_adjust_correct ⟨2012, 12, 20⟩ ⟨2019, 2, 7⟩ (by decide) (by decide)

/-- C6: for every valid calendar date (including dates before the anchor),
`kin_from_date` returns kin in 1..260, tone in 1..13, seal in 1..20, and a
color equal to the `COLORS` table entry at (seal − 1) mod 4. -/
theorem kin_from_date_in_ranges (d : Date) (_hd : validDate d) :
    1 ≤ (kin_from_date d).1 ∧ (kin_from_date d).1 ≤ 260 ∧
    1 ≤ (kin_from_date d).2.1 ∧ (kin_from_date d).2.1 ≤ 13 ∧
    1 ≤ (kin_from_date d).2.2.1 ∧ (kin_from_date d).2.2.1 ≤ 20 ∧
    (kin_from_date d).2.2.2 = COLORS.getD (((kin_from_date d).2.2.1 - 1) % 4) "" := by
  obtain ⟨hk1, hk2⟩ := kin_from_date_kin_bounds d
  obtain ⟨ht, hs, hc⟩ := kin_from_date_components d
  refine ⟨hk1, hk2, ?_, ?_, ?_, ?_, hc⟩
  · rw [ht]; omega
  · rw [ht]; omega
  · rw [hs]; omega
  · rw [hs]; omega

/-- Witness for C6 at the pre-anchor date 1995-06-15. -/
theorem kin_from_date_in_ranges_witness :
    1 ≤ (kin_from_date ⟨1995, 6, 15⟩).1 ∧ (kin_from_date ⟨1995, 6, 15⟩).1 ≤ 260 ∧
    1 ≤ (kin_from_date ⟨1995, 6, 15⟩).2.1 ∧ (kin_from_date ⟨1995, 6, 15⟩).2.1 ≤ 13 ∧
    1 ≤ (kin_from_date ⟨1995, 6, 15⟩).2.2.1 ∧ (kin_from_date ⟨1995, 6, 15⟩).2.2.1 ≤ 20 ∧
    (kin_from_date ⟨1995, 6, 15⟩).2.2.2
      = COLORS.getD (((kin_from_date ⟨1995, 6, 15⟩).2.2.1 - 1) % 4) "" :=
  kin_from_date_in_ranges ⟨1995, 6, 15⟩ (by decide)

/-- C7: the leap adjustment is antisymmetric in its two date arguments. -/
theorem hunab_ku_adjust_antisymm (a b : Date) (_ha : validDate a) (_hb : validDate b)
    (hne : a ≠ b) : hunab_ku_adjust a b = -hunab_ku_adjust b a := by
  rw [hunab_ku_adjust_eq_spec a b, hunab_ku_adjust_eq_spec b a]
  by_cases h1 : Date.ltB a b = true
  · have h2 : Date.ltB b a = false := Date.ltB_asymm h1
    simp [Date.lt_iff_ltB, h1, h2]
  · have h2 : Date.ltB b a = true := Date.ltB_total hne (by simpa using h1)
    simp [Date.lt_iff_ltB, h1, h2]

/-- Witness for C7 on the pair (2012-12-20, 2016-03-01). -/
theorem hunab_ku_adjust_antisymm_witness :
    hunab_ku_adjust ⟨2012, 12, 20⟩ ⟨2016, 3, 1⟩
      = -hunab_ku_adjust ⟨2016, 3, 1⟩ ⟨2012, 12, 20⟩ :=
  hunab_ku_adjust_antisymm ⟨2012, 12, 20⟩ ⟨2016, 3, 1⟩ (by decide) (by decide) (by decide)

/-- C8: the occult transforms are involutions on their cycles: twice
`occult_seal` is the identity on 1..20 and twice `occult_tone` is the
identity on 1..13. -/
theorem occult_involution :
    (∀ s ∈ Finset.Icc 1 20, occult_seal (occult_seal s) = s) ∧
    (∀ t ∈ Finset.Icc 1 13, occult_tone (occult_tone t) = t) := by decide

/-- Witness for C8 at seal 7 and tone 5. -/
theorem occult_involution_witness :
    occult_seal (occult_seal 7) = 7 ∧ occult_tone (occult_tone 5) = 5 :=
  ⟨occult_involution.1 7 (by decide), occult_involution.2 5 (by decide)⟩

/-- C9: the analog transform is an involution on 1..20 and always returns a
value in 1..20. -/
theorem analog_involution :
    ∀ s ∈ Finset.Icc 1 20,
      analog_seal (analog_seal s) = s ∧ analog_seal s ∈ Finset.Icc 1 20 := by decide

/-- Witness for C9 at seal 12. -/
theorem analog_involution_witness :
    analog_seal (analog_seal 12) = 12 ∧ analog_seal 12 ∈ Finset.Icc 1 20 :=
  analog_involution 12 (by decide)

/-- C10: the guide seal always has the same color as the source seal: for
every seal in 1..20 and tone in 1..13 the guide is defined and its residue
mod 4 matches the source seal's. -/
theorem guide_seal_same_color :
    ∀ s ∈ Finset.Icc 1 20, ∀ t ∈ Finset.Icc 1 13,
      ∃ g ∈ Finset.Icc 1 20,
        guide_seal s t = some g ∧ (g - 1) % 4 = (s - 1) % 4 := by decide

/-- Witness for C10 at seal 1, tone 2. -/
theorem guide_seal_same_color_witness :
    ∃ g ∈ Finset.Icc 1 20,
      guide_seal 1 2 = some g ∧ (g - 1) % 4 = (1 - 1) % 4 :=
  guide_seal_same_color 1 (by decide) 2 (by decide)

end Tzolkin
